import Mathlib

/-!
Verification of the shape-area and rectangle-geometry programs.

Modelling conventions:
* `f64` values are embedded as exact rationals (`ℚ`); decimal literals such
  as `3.14` denote the exact decimal value.  All identities claimed by the
  specification are exact-arithmetic identities, and the concrete reference
  outputs (`153.86`, `8`) coincide with the values the program prints.
* `u32` values are embedded as `Nat` with an explicit `% 2 ^ 32` applied at
  every arithmetic step where overflow could occur.
* The file-system read performed by the standard library is not part of the
  repository; it is passed in as an explicit function argument, so that the
  program's own control flow over its result can be verified.
-/

namespace EnumPtMatch

/-- Shape enum from enum_pt_match.rs: a rectangle carrying two `f64`
dimensions or a circle carrying an `f64` radius. -/
inductive Shape where
  | Rect : ℚ → ℚ → Shape
  | Circle : ℚ → Shape

/-- Embedding of `calc_area` from enum_pt_match.rs: an exhaustive match on
the two `Shape` variants, using the literal constant `3.14` for the circle. -/
def calc_area : Shape → ℚ
  | Shape.Rect a b => a * b
  | Shape.Circle r => 3.14 * r * r

end EnumPtMatch

namespace ImplStruct

/-- Modulus of `u32` arithmetic. -/
def U32_MOD : Nat := 2 ^ 32

/-- Rect struct from impl_struct.rs with two `u32` fields. -/
structure Rect where
  len : Nat
  breadth : Nat

/-- Embedding of `Rect::area`: `self.len * self.breadth` in `u32`. -/
def Rect.area (self : Rect) : Nat :=
  (self.len * self.breadth) % U32_MOD

/-- Embedding of `Rect::peri`: `2 * (self.len + self.breadth)` in `u32`,
with the inner addition performed first. -/
def Rect.peri (self : Rect) : Nat :=
  (2 * ((self.len + self.breadth) % U32_MOD)) % U32_MOD

/-- Embedding of the method call `self.area()` through `&self`: the borrow
is made explicit by returning the result together with the (unchanged)
receiver state. -/
def Rect.areaCall (self : Rect) : Nat × Rect :=
  (self.area, self)

/-- Embedding of the method call `self.peri()` through `&self`, returning
the result together with the (unchanged) receiver state. -/
def Rect.periCall (self : Rect) : Nat × Rect :=
  (self.peri, self)

end ImplStruct

namespace ResultBin

/-- Abstract kind of I/O failure returned by the standard-library read; the
program inspects none of its structure. -/
inductive IoErrorKind where
  | notFound
  | permissionDenied
  | otherKind

/-- Embedding of `read_from_file_rust` from result.rs.  The standard-library
call `read_to_string` is not part of the repository, so it is passed in as
an explicit function from paths to `Except` results; the function matches on
that result, returning the contents on `Ok` and the fixed fallback string on
any `Err`. -/
def read_from_file_rust (read_to_string : String → Except IoErrorKind String)
    (file_path : String) : String :=
  match read_to_string file_path with
  | Except.ok data => data
  | Except.error _ => "File not present!"

end ResultBin

open EnumPtMatch ImplStruct ResultBin

/-- C1: for every radius `r`, `calc_area (Circle r)` equals `K * r * r` with
`K` the exact low-precision constant `3.14`, and this constant is not the
higher-precision value of π. -/
theorem calc_area_circle_uses_3_14 (r : ℚ) :
    calc_area (Shape.Circle r) = 3.14 * r * r ∧ (3.14 : ℝ) ≠ Real.pi := by
  refine ⟨rfl, ?_⟩
  intro h
  have hπ : (3.141592 : ℝ) < Real.pi := Real.pi_gt_d6
  rw [← h] at hπ
  norm_num at hπ

/-- C2: for every width `w` and height `h`, including zero and negative
values, `calc_area (Rect w h)` is the product `w * h`; no constraint is
checked, so degenerate dimensions are accepted. -/
theorem calc_area_rect_product (w h : ℚ) :
    calc_area (Shape.Rect w h) = w * h ∧
    calc_area (Shape.Rect 0 h) = 0 ∧
    calc_area (Shape.Rect (-w) h) = -(w * h) := by
  refine ⟨rfl, ?_, ?_⟩ <;> simp [calc_area]

/-- C3: for `u32` length `L` and breadth `B` whose arithmetic stays in the
representable range, `Rect.area` returns `L * B` and `Rect.peri` returns
`2 * (L + B)`. -/
theorem rect_area_peri_in_range (L B : Nat)
    (hA : L * B < 2 ^ 32) (hS : L + B < 2 ^ 32) (hP : 2 * (L + B) < 2 ^ 32) :
    (Rect.mk L B).area = L * B ∧ (Rect.mk L B).peri = 2 * (L + B) := by
  constructor
  · exact Nat.mod_eq_of_lt (by simpa [U32_MOD] using hA)
  · show (2 * ((L + B) % U32_MOD)) % U32_MOD = 2 * (L + B)
    rw [Nat.mod_eq_of_lt (show L + B < U32_MOD by simpa [U32_MOD] using hS)]
    exact Nat.mod_eq_of_lt (by simpa [U32_MOD] using hP)

/-- C3 witness: the in-range hypotheses hold at `L = 20`, `B = 40`, and the
conclusion evaluates there. -/
theorem rect_area_peri_in_range_witness :
    (Rect.mk 20 40).area = 20 * 40 ∧ (Rect.mk 20 40).peri = 2 * (20 + 40) :=
  rect_area_peri_in_range 20 40 (by decide) (by decide) (by decide)

/-- C4: on the concrete reference input `Circle 7.0`, `calc_area` returns
exactly `153.86`, i.e. `3.14 * 49`. -/
theorem calc_area_circle_7 :
    calc_area (Shape.Circle 7.0) = 153.86 := by
  norm_num [calc_area]

/-- C5: on the concrete reference inputs, `Rect {len 20, breadth 40}` has
area `800` and perimeter `120`, and `calc_area (Rect 2.0 4.0)` is `8.0`. -/
theorem reference_inputs_evaluate :
    (Rect.mk 20 40).area = 800 ∧ (Rect.mk 20 40).peri = 120 ∧
    calc_area (Shape.Rect 2.0 4.0) = 8.0 := by
  refine ⟨by decide, by decide, ?_⟩
  norm_num [calc_area]

/-- C6: `calc_area` handles every `Shape` value: the match over the closed
variant set is exhaustive, and each variant — with any dimensions — lands
in exactly one defined branch. -/
theorem calc_area_total (s : Shape) :
    (∃ a b, s = Shape.Rect a b ∧ calc_area s = a * b) ∨
    (∃ r, s = Shape.Circle r ∧ calc_area s = 3.14 * r * r) := by
  cases s with
  | Rect a b => exact Or.inl ⟨a, b, rfl, rfl⟩
  | Circle r => exact Or.inr ⟨r, rfl, rfl⟩

/-- C7: `read_from_file_rust` returns the file contents exactly when the
underlying read succeeds, and returns the fixed fallback string on any read
failure, regardless of the failure kind; no other outcome exists. -/
theorem read_from_file_rust_spec
    (read_to_string : String → Except IoErrorKind String) (file_path : String) :
    (∃ data, read_to_string file_path = Except.ok data ∧
      read_from_file_rust read_to_string file_path = data) ∨
    ((∃ e, read_to_string file_path = Except.error e) ∧
      read_from_file_rust read_to_string file_path = "File not present!") := by
  unfold read_from_file_rust
  cases h : read_to_string file_path with
  | ok data => exact Or.inl ⟨data, rfl, rfl⟩
  | error e => exact Or.inr ⟨⟨e, rfl⟩, rfl⟩

/-- C8: `calc_area`, `Rect.area` and `Rect.peri` are pure: the `&self`
method calls leave the receiver's fields unchanged, and repeating any call
on the same input yields the same output. -/
theorem operations_pure (r : Rect) (s : Shape) :
    r.areaCall.2 = r ∧ r.periCall.2 = r ∧
    r.areaCall.2.areaCall.1 = r.areaCall.1 ∧
    r.periCall.2.periCall.1 = r.periCall.1 ∧
    calc_area s = calc_area s :=
  ⟨rfl, rfl, rfl, rfl, rfl⟩

/-- C9: swapping the two dimensions leaves the area unchanged, both for
`calc_area` on `Rect a b` and for `Rect.area` with `L * B` in range. -/
theorem area_symmetric (a b : ℚ) (L B : Nat) (h : L * B < 2 ^ 32) :
    calc_area (Shape.Rect a b) = calc_area (Shape.Rect b a) ∧
    (Rect.mk L B).area = (Rect.mk B L).area := by
  constructor
  · simp [calc_area, mul_comm]
  · simp [Rect.area, Nat.mul_comm]

/-- C9 witness: the range hypothesis holds at `L = 20`, `B = 40`, and the
symmetry conclusion holds there and at `a = 1`, `b = 2`. -/
theorem area_symmetric_witness :
    calc_area (Shape.Rect 1 2) = calc_area (Shape.Rect 2 1) ∧
    (Rect.mk 20 40).area = (Rect.mk 40 20).area :=
  area_symmetric 1 2 20 40 (by decide)

/-- C10: whenever the perimeter computation stays in `u32` range,
`Rect.peri` returns an even number. -/
theorem peri_even (L B : Nat)
    (hS : L + B < 2 ^ 32) (hP : 2 * (L + B) < 2 ^ 32) :
    2 ∣ (Rect.mk L B).peri := by
  have hval : (Rect.mk L B).peri = 2 * (L + B) := by
    show (2 * ((L + B) % U32_MOD)) % U32_MOD = 2 * (L + B)
    rw [Nat.mod_eq_of_lt (show L + B < U32_MOD by simpa [U32_MOD] using hS)]
    exact Nat.mod_eq_of_lt (by simpa [U32_MOD] using hP)
  rw [hval]
  exact Dvd.intro (L + B) rfl

/-- C10 witness: the range hypotheses hold at `L = 20`, `B = 40`, where the
perimeter is even. -/
theorem peri_even_witness : 2 ∣ (Rect.mk 20 40).peri :=
  peri_even 20 40 (by decide) (by decide)
